import Mathlib

/-! # Formal model of the `trace_fitter.py` fitting engine

A shallow embedding, in Lean 4, of the pulse-shape fitting engine of
`trace_fitter.py` (CDMS_analysis), together with proofs about the embedded
functions.  Line numbers in doc comments refer to `trace_fitter.py`.

Modelling conventions:

* numpy / Python double-precision values are modelled as exact rationals `ℚ`:
  decimal literals of the source (`0.1`, `0.2`, `0.8`, ...) become the exact
  fractions `1/10`, `1/5`, `4/5`, ...; the constant `np.e` becomes `npE`, the
  exact rational value of the IEEE-754 double nearest to Euler's number (the
  value numpy actually stores).  Arithmetic is exact; none of the statements
  proved below sits at a knife-edge where double rounding could flip one of
  the threshold comparisons involved.
* 1-d numpy arrays become `List ℚ`; the slice `a[i:]` becomes `List.drop i`,
  `a[:i]` becomes `List.take i`, `a[i:j]` becomes `take (j-i) (drop i a)`,
  and element access `a[i]` becomes `List.getD a i 0` (every element access
  on a live path of the modelled code is in range, so the default is never
  consulted there).
* Fallible Python code is embedded in `Except PyError`: indexing an empty
  `np.nonzero(...)[0]` match array raises `IndexError`; evaluating an
  undefined name raises `NameError`.
* The analytic pulse shapes, which need the real exponential, are modelled
  over `ℝ`; inside the fitting pipeline the shape function is only handed
  through to the external solver, so there it is an opaque tag `PulseModel`.
* The module-global `sensorType` (written once per invocation by `traceFit`,
  line 62, and read by `fittingRange`) is passed as an explicit `String`.
* The scipy solver `curve_fit` is an external numerical primitive; the
  pipeline `trace_fitting` is parametrised over it.
* File input (`traces_rdf`), plotting and printing are out of scope; the
  embedded `traceFit_TES_core` / `traceFit_FET_core` model the fitting call
  each driver makes once the trace has been read.
-/

/-- Kinds of Python exception arising in the modelled code paths. -/
inductive PyError
  | nameError   -- evaluating a name that is not defined
  | indexError  -- indexing an empty `np.nonzero(...)[0]` match array
  | fitError    -- failure inside the external solver
deriving DecidableEq, Repr

deriving instance DecidableEq for Except

unseal Rat.sub Rat.add Rat.mul Rat.inv Rat.ofScientific

set_option maxRecDepth 16384

/-- `np.nonzero(mask)[0][0]` for the boolean mask `xs.map p`: index of the
first element satisfying `p`, or `none` when no element does (in which case
the Python source raises `IndexError` on the empty match array). -/
def nonzeroFirst {α : Type} (p : α → Bool) : List α → Option ℕ
  | [] => none
  | x :: xs => if p x then some 0 else (nonzeroFirst p xs).map (· + 1)

/-- `np.nonzero(mask)[0][-1]` for the boolean mask `xs.map p`: index of the
last element satisfying `p`, or `none` when no element does. -/
def nonzeroLast {α : Type} (p : α → Bool) : List α → Option ℕ
  | [] => none
  | x :: xs =>
    match nonzeroLast p xs with
    | some k => some (k + 1)
    | none => if p x then some 0 else none

/-- `trace.max()` / `max(trace)` of a nonempty array (the Python calls fail
on an empty array; no modelled claim exercises an empty trace). -/
def npMax (xs : List ℚ) : ℚ := xs.foldl max (xs.headD 0)

/-- `trace.min()` of a nonempty array. -/
def npMin (xs : List ℚ) : ℚ := xs.foldl min (xs.headD 0)

/-- `np.argmax(trace)` and `trace.tolist().index(max(trace))`: both return
the index of the first occurrence of the maximum. -/
def npArgmax (xs : List ℚ) : ℕ :=
  (nonzeroFirst (fun x => decide (x = npMax xs)) xs).getD 0

/-- `np.argmin(trace)`: index of the first occurrence of the minimum. -/
def npArgmin (xs : List ℚ) : ℕ :=
  (nonzeroFirst (fun x => decide (x = npMin xs)) xs).getD 0

/-- The IEEE-754 double value of `np.e`, namely `6121026514868073 / 2^51`. -/
def npE : ℚ := 6121026514868073 / 2251799813685248

/-- `TESshape` (lines 117-120): difference of two exponentials with rise
and fall time constants, evaluated at one time point. -/
noncomputable def TESshape (x a t_r t_f offset : ℝ) : ℝ :=
  a * (Real.exp (-(x - offset) / t_f) - Real.exp (-(x - offset) / t_r))

/-- `FETshape` (lines 122-126): derivative-like double exponential with
inverse decay and recovery rates, evaluated at one time point.  The source
itself notes: "Peak value is not 'a'; it is a*(invTd-invTr)". -/
noncomputable def FETshape (x a invTd invTr offset : ℝ) : ℝ :=
  a * (Real.exp (-(x - offset) * invTd) * invTd -
       Real.exp (-(x - offset) * invTr) * invTr)

/-- `guessTES` (lines 131-159).  The four threshold searches follow the
source (lines 138, 139, 143, 144).  Once they succeed the source computes
`riseGuess` (line 140), `fallGuess` (line 145), then `tpeak` and
`offsetGuess` (lines 149-150; `np.log` of a float never raises), and then
line 153 (`pmax = pulseShape(tpeak, 1., riseGuess, fallGuess, 0.)`)
evaluates the name `pulseShape`, which is not defined at module scope — it
exists only as a parameter of `trace_fitting` — so every invocation on which
all four searches succeed ends in `NameError` and the values computed at
lines 140-150 are dead. -/
def guessTES (bins trace : List ℚ) : Except PyError (ℚ × ℚ × ℚ × ℚ) :=
  let peak := npMax trace
  let ipeak := npArgmax trace
  match nonzeroLast (fun x => decide (x ≤ 1/10 * peak)) (trace.take ipeak) with
  | none => .error .indexError
  | some rlo =>
    match nonzeroLast (fun x => decide (x ≤ 2/10 * peak * npE)) (trace.take ipeak) with
    | none => .error .indexError
    | some rhi =>
      match nonzeroFirst (fun x => decide (x ≤ 8/10 * peak)) (trace.drop ipeak) with
      | none => .error .indexError
      | some flo =>
        match nonzeroFirst (fun x => decide (x ≤ 4/10 * peak / npE)) (trace.drop ipeak) with
        | none => .error .indexError
        | some fhi =>
          let riseGuess := bins.getD rhi 0 - bins.getD rlo 0
          let fallGuess := (bins.getD fhi 0 - bins.getD flo 0) / 2
          -- line 153 evaluates the undefined name `pulseShape`
          .error .nameError

/-- `guessFET` (lines 161-197), in source order: trigger search (line 169,
`IndexError` if `bins` has no nonnegative entry), integer offset guess
(line 170), decay search (line 173) and decay rate (line 174: note the
source indexes `bins` with `dhi`, an index *relative to the slice*
`trace[ipeak:]`), then the undershoot branch (lines 181-189) with the
recovery-rate clamp, and the scale guess (line 192). -/
def guessFET (bins trace : List ℚ) : Except PyError (ℚ × ℚ × ℚ × ℚ) :=
  let peak := npMax trace
  let ipeak := npArgmax trace
  match nonzeroFirst (fun b => decide (0 ≤ b)) bins with
  | none => .error .indexError
  | some i0 =>
    let istart := i0 + 1
    let offsetGuess : ℚ := (ipeak : ℚ) - (istart : ℚ)
    match nonzeroLast (fun x => decide (peak / (2 * npE) ≤ x)) (trace.drop ipeak) with
    | none => .error .indexError
    | some dhi =>
      let decayGuess := 2 / (bins.getD dhi 0 - bins.getD 0 0)
      let tmin := npMin trace
      let imin := npArgmin trace
      if tmin < 0 then
        let tlast := npMax (trace.drop imin)
        match nonzeroFirst (fun x => decide (tmin * (8/10) ≤ x)) (trace.drop imin) with
        | none => .error .indexError
        | some rlo =>
          match nonzeroFirst
              (fun x => decide (min (tmin * (4/10) / npE) tlast ≤ x)) (trace.drop imin) with
          | none => .error .indexError
          | some rhi =>
            let raw := 2 / (bins.getD rhi 0 - bins.getD rlo 0)
            let recoveryGuess := if raw < 1/10 * decayGuess then 0 else raw
            .ok (peak / (decayGuess - recoveryGuess), decayGuess, recoveryGuess, offsetGuess)
      else
        let recoveryGuess : ℚ := 0
        .ok (peak / (decayGuess - recoveryGuess), decayGuess, recoveryGuess, offsetGuess)

/-- The type of the guess functions handed to `trace_fitting`. -/
abbrev GuessFunc := List ℚ → List ℚ → Except PyError (ℚ × ℚ × ℚ × ℚ)

/-- The `bounds` values that can actually reach the `curve_fit` call site:
only the scalar pair `(-np.inf, np.inf)`, since `guessRange` raises on every
non-`None` argument (see `guessRange`). -/
inductive PyBounds
  | unbounded
deriving DecidableEq, Repr

/-- `guessRange` (lines 200-216).  With `guessFunc=None` it returns the
unconstrained scalar pair `(-np.inf, np.inf)` (line 205).  With any
non-`None` argument, line 207 (`lower = 0.1*np.array(guess)`) evaluates the
name `guess`, which is defined neither in the function (its parameter is the
guess *function* `guessFunc`, never a guess vector) nor at module scope, so
Python raises `NameError` before any bounds are computed. -/
def guessRange (guessFunc : Option GuessFunc) : Except PyError PyBounds :=
  match guessFunc with
  | none => .ok .unbounded
  | some _ => .error .nameError

/-- `ℚ` extended with both infinities, for per-parameter fit bounds. -/
inductive ExtQ
  | negInf
  | posInf
  | val (q : ℚ)
deriving DecidableEq, Repr

/-- The bounds computation described by the spec (§4.5 BoundsPolicy) for a
supplied guess vector — i.e. what lines 207-215 of `guessRange` compute once
the name `guess` denotes the guess vector: per parameter `g`, lower `0.1·g`
and upper `5·g`, except that a parameter whose guess is exactly `0` receives
unconstrained bounds `(-∞, +∞)`.  Declared separately from `guessRange` so
the intended values can be compared with what the code actually does. -/
def guessRange_spec (guess : List ℚ) : List ExtQ × List ExtQ :=
  (guess.map (fun g => if g = 0 then ExtQ.negInf else ExtQ.val (1/10 * g)),
   guess.map (fun g => if g = 0 then ExtQ.posInf else ExtQ.val (5 * g)))

/-- `fittingRange` (lines 219-240).  `peak = max(trace)` and
`ipeak = trace.tolist().index(peak)` (first occurrence of the maximum, i.e.
`npArgmax`); the TES branch searches for the end of the rising edge (last
index of the prefix `trace[:ipeak]` at or below `cut*peak`, line 232) and
the start of the falling tail (line 233); the FET branch (lines 236-237)
returns `[argmax+1, argmax+1+2000)`; any other sensor string leaves the
defaults `[0, len(trace))`. -/
def fittingRange (sensorType : String) (trace : List ℚ) (cut : ℚ) :
    Except PyError (ℕ × ℕ) :=
  let peak := npMax trace
  let ipeak := npArgmax trace
  if sensorType = "TES" then
    match nonzeroLast (fun x => decide (x ≤ cut * peak)) (trace.take ipeak) with
    | none => .error .indexError
    | some ilo =>
      match nonzeroFirst (fun x => decide (x ≤ cut * peak)) (trace.drop ipeak) with
      | none => .error .indexError
      | some k => .ok (ilo, ipeak + k)
  else if sensorType = "FET" then
    .ok (ipeak + 1, ipeak + 1 + 2000)
  else
    .ok (0, trace.length)

/-- Opaque tags for the two pulse-shape function objects that the drivers
pass into `trace_fitting` (the pipeline itself only hands the object through
to the solver; the analytic forms are `TESshape` and `FETshape` above). -/
inductive PulseModel
  | TESmodel
  | FETmodel
deriving DecidableEq, Repr

/-- The type of the external scipy `curve_fit` primitive as used at
lines 263-264: shape function, windowed x data, windowed y data, `p0` seed
(`None` when no guess function was given), bounds. -/
abbrev CurveFit (Shape : Type) :=
  Shape → List ℚ → List ℚ → Option (ℚ × ℚ × ℚ × ℚ) → PyBounds →
    Except PyError (ℚ × ℚ × ℚ × ℚ)

/-- `trace_fitting` (lines 245-268), parametrised over the external solver
and over the type of the pulse-shape object.  It follows the source order:
the window from the FULL trace (line 256, with the default `cut=0.2`), then
the guess from the FULL `bins`/`trace` arrays (line 258), then the bounds
(line 259), then the solve over the windowed sub-arrays seeded with that
guess (lines 263-264).  A Python exception raised by any stage propagates
(`.error` short-circuits the following stages).  The final unpacking
`a, t1, t2, offset = params` (line 267) is the identity on the 4-tuple. -/
def trace_fitting {Shape : Type} (sensorType : String) (curve_fit : CurveFit Shape)
    (bins trace : List ℚ) (pulseShape : Shape)
    (guessFunc : Option GuessFunc) (dobounds : Bool) :
    Except PyError (ℚ × ℚ × ℚ × ℚ) :=
  match fittingRange sensorType trace (1/5) with
  | .error err => .error err
  | .ok se =>
    match (match guessFunc with
           | some f => Except.map some (f bins trace)
           | none => .ok none) with
    | .error err => .error err
    | .ok guess =>
      match (if dobounds then guessRange guessFunc else .ok .unbounded) with
      | .error err => .error err
      | .ok bounds =>
        curve_fit pulseShape ((bins.drop se.1).take (se.2 - se.1))
          ((trace.drop se.1).take (se.2 - se.1)) guess bounds

/-- The fitting call made by `traceFit_TES` (line 82):
`trace_fitting(bins, trace, TESshape, guessTES)` with the default
`dobounds=True`, after `traceFit` (line 62) has set the global
`sensorType` to `"TES"`. -/
def traceFit_TES_core (curve_fit : CurveFit PulseModel) (bins trace : List ℚ) :
    Except PyError (ℚ × ℚ × ℚ × ℚ) :=
  trace_fitting "TES" curve_fit bins trace PulseModel.TESmodel (some guessTES) true

/-- The fitting call made by `traceFit_FET` (line 103):
`trace_fitting(bins, trace, FETshape, guessFET, False)` — bounds explicitly
disabled — after `traceFit` (line 62) has set the global `sensorType` to
`"FET"`. -/
def traceFit_FET_core (curve_fit : CurveFit PulseModel) (bins trace : List ℚ) :
    Except PyError (ℚ × ℚ × ℚ × ℚ) :=
  trace_fitting "FET" curve_fit bins trace PulseModel.FETmodel (some guessFET) false

/-! ## Concrete inputs used by witnesses and counterexamples -/

/-- Bin axis for the synthetic TES pulse `tesTrace`. -/
def tesBins : List ℚ := [0, 1, 2, 3, 4, 5]

/-- A clean synthetic TES-like pulse: peak `1` at index 3, on which all four
threshold searches of `guessTES` succeed. -/
def tesTrace : List ℚ := [0, 3/10, 7/10, 1, 1/2, 1/10]

/-- Bin axis of a small FET-like input. -/
def fetBins : List ℚ := [0, 1, 2]

/-- A small FET-like trace with its peak at index 1. -/
def fetTrace : List ℚ := [0, 5, 3]

/-- A toy guess function used to exercise the pipeline dataflow. -/
def toyGuess : GuessFunc := fun _ _ => Except.ok (1, 2, 3, 4)

/-- A toy solver that simply returns its seed (or zeros). -/
def toySolver : CurveFit Unit := fun _ _ _ g _ => Except.ok (g.getD (0, 0, 0, 0))

/-- A second toy solver, for the FET driver. -/
def toySolverPM : CurveFit PulseModel := fun _ _ _ _ _ => Except.ok (0, 0, 0, 0)

/-- The amended TES-window property (cf. C4): `s` is the last index before
the peak at or below `cut*peak` and is itself part of the window; `e` is the
first index at or after the peak at or below `cut*peak`; the window strictly
contains the peak; and every window index other than `s` itself carries a
value strictly above `cut*peak`. -/
def TESwindowSpec (trace : List ℚ) (cut : ℚ) (s e : ℕ) : Prop :=
  (s < npArgmax trace ∧ npArgmax trace < e ∧ e < trace.length) ∧
  (trace.getD s 0 ≤ cut * npMax trace ∧
    ∀ j, s < j → j < npArgmax trace → cut * npMax trace < trace.getD j 0) ∧
  (trace.getD e 0 ≤ cut * npMax trace ∧
    ∀ j, npArgmax trace ≤ j → j < e → cut * npMax trace < trace.getD j 0) ∧
  (∀ j, s < j → j < e → cut * npMax trace < trace.getD j 0)

/-- The synthetic clean-single-peak TES trace of claim C4: baseline 0
before the rise and after the fall, peak 1 at index 50. -/
def exTrace4 : List ℚ :=
  List.replicate 48 0 ++ [3/10, 7/10, 1, 7/10, 3/10, 0, 0]

/-- Bin axis for the FET decay-rate example. -/
def exBins5 : List ℚ := [0, 1, 2, 3, 4]

/-- FET-like trace with peak at index 1 (so slice-relative and full-trace
indices differ). -/
def exTrace5 : List ℚ := [0, 5, 3, 2, 0]

/-- Bin axis for the recovery-clamp example (nonuniform, so that the decay
rate is `1.0` and the raw recovery rate `0.05`, as in the claim). -/
def exBins7 : List ℚ := [0, 2, 42, 43, 82, 83]

/-- FET-like trace with an undershoot: peak 5 at index 1, minimum -1 at
index 3, recovering to 0. -/
def exTrace7 : List ℚ := [0, 5, 3, -1, -1/2, 0]

/-! ## Specification lemmas for the embedded numpy search idioms -/

/-- On success, `nonzeroFirst` returns an in-range index whose element
satisfies the predicate, while no earlier element does. -/
theorem nonzeroFirst_eq_some {α : Type} (p : α → Bool) (d : α) :
    ∀ (xs : List α) (k : ℕ), nonzeroFirst p xs = some k →
      k < xs.length ∧ p (xs.getD k d) = true ∧
        ∀ j, j < k → p (xs.getD j d) = false := by
  intro xs
  induction xs with
  | nil => intro k h; simp [nonzeroFirst] at h
  | cons x xs ih =>
    intro k h
    by_cases hx : p x
    · rw [nonzeroFirst, if_pos hx] at h
      obtain rfl : k = 0 := (Option.some.inj h).symm
      exact ⟨Nat.succ_pos _, by simpa using hx, fun j hj => absurd hj (Nat.not_lt_zero j)⟩
    · rw [nonzeroFirst, if_neg hx] at h
      rcases Option.map_eq_some'.1 h with ⟨k', hk', rfl⟩
      obtain ⟨h1, h2, h3⟩ := ih k' hk'
      refine ⟨by simpa using Nat.succ_lt_succ h1, by simpa using h2, ?_⟩
      intro j hj
      cases j with
      | zero => simpa using hx
      | succ j' => simpa using h3 j' (by omega)

/-- If `nonzeroFirst` finds nothing, no element satisfies the predicate. -/
theorem nonzeroFirst_eq_none {α : Type} (p : α → Bool) (d : α) :
    ∀ (xs : List α), nonzeroFirst p xs = none →
      ∀ j, j < xs.length → p (xs.getD j d) = false := by
  intro xs
  induction xs with
  | nil => intro _ j hj; simp at hj
  | cons x xs ih =>
    intro h j hj
    by_cases hx : p x
    · rw [nonzeroFirst, if_pos hx] at h; simp at h
    · rw [nonzeroFirst, if_neg hx] at h
      cases j with
      | zero => simpa using hx
      | succ j' =>
        have htl : nonzeroFirst p xs = none := by
          cases htl : nonzeroFirst p xs with
          | none => rfl
          | some k => rw [htl] at h; simp at h
        simpa using ih htl j' (by simpa using hj)

/-- If some element satisfies the predicate, `nonzeroFirst` succeeds. -/
theorem nonzeroFirst_isSome {α : Type} (p : α → Bool) (xs : List α)
    (h : ∃ x ∈ xs, p x = true) : ∃ k, nonzeroFirst p xs = some k := by
  cases hk : nonzeroFirst p xs with
  | some k => exact ⟨k, rfl⟩
  | none =>
    obtain ⟨x, hx, hpx⟩ := h
    obtain ⟨j, hj, hxj⟩ := List.getElem_of_mem hx
    have hfalse := nonzeroFirst_eq_none p x xs hk j hj
    rw [List.getD_eq_getElem?_getD, List.getElem?_eq_getElem hj,
      Option.getD_some, hxj, hpx] at hfalse
    cases hfalse

/-- If `nonzeroLast` finds nothing, no element satisfies the predicate. -/
theorem nonzeroLast_eq_none {α : Type} (p : α → Bool) (d : α) :
    ∀ (xs : List α), nonzeroLast p xs = none →
      ∀ j, j < xs.length → p (xs.getD j d) = false := by
  intro xs
  induction xs with
  | nil => intro _ j hj; simp at hj
  | cons x xs ih =>
    intro h j hj
    rw [nonzeroLast] at h
    cases htl : nonzeroLast p xs with
    | some k => rw [htl] at h; simp at h
    | none =>
      rw [htl] at h
      by_cases hx : p x
      · rw [if_pos hx] at h; simp at h
      · cases j with
        | zero => simpa using hx
        | succ j' => simpa using ih htl j' (by simpa using hj)

/-- On success, `nonzeroLast` returns an in-range index whose element
satisfies the predicate, while no later element does. -/
theorem nonzeroLast_eq_some {α : Type} (p : α → Bool) (d : α) :
    ∀ (xs : List α) (k : ℕ), nonzeroLast p xs = some k →
      k < xs.length ∧ p (xs.getD k d) = true ∧
        ∀ j, k < j → j < xs.length → p (xs.getD j d) = false := by
  intro xs
  induction xs with
  | nil => intro k h; simp [nonzeroLast] at h
  | cons x xs ih =>
    intro k h
    rw [nonzeroLast] at h
    cases htl : nonzeroLast p xs with
    | some k' =>
      rw [htl] at h
      obtain rfl : k = k' + 1 := (Option.some.inj h).symm
      obtain ⟨h1, h2, h3⟩ := ih k' htl
      refine ⟨by simpa using Nat.succ_lt_succ h1, by simpa using h2, ?_⟩
      intro j hj hjl
      cases j with
      | zero => omega
      | succ j' => simpa using h3 j' (by omega) (by simpa using hjl)
    | none =>
      rw [htl] at h
      by_cases hx : p x
      · rw [if_pos hx] at h
        obtain rfl : k = 0 := (Option.some.inj h).symm
        refine ⟨Nat.succ_pos _, by simpa using hx, ?_⟩
        intro j hj hjl
        cases j with
        | zero => omega
        | succ j' => simpa using nonzeroLast_eq_none p d xs htl j' (by simpa using hjl)
      · rw [if_neg hx] at h; simp at h

/-- `getD` through `take`. -/
theorem getD_take_eq {α : Type} (xs : List α) (n k : ℕ) (d : α) (h : k < n) :
    (xs.take n).getD k d = xs.getD k d := by
  simp [List.getD_eq_getElem?_getD, List.getElem?_take_of_lt h]

/-- `getD` through `drop`. -/
theorem getD_drop_eq {α : Type} (xs : List α) (n k : ℕ) (d : α) :
    (xs.drop n).getD k d = xs.getD (n + k) d := by
  simp [List.getD_eq_getElem?_getD, List.getElem?_drop]

/-- A left fold of `max` yields the seed or a member of the list. -/
theorem foldl_max_mem (xs : List ℚ) :
    ∀ (a : ℚ), xs.foldl max a = a ∨ xs.foldl max a ∈ xs := by
  induction xs with
  | nil => intro a; exact Or.inl rfl
  | cons x xs ih =>
    intro a
    rcases ih (max a x) with h | h
    · rcases max_choice a x with hc | hc
      · exact Or.inl (by rw [List.foldl_cons, h, hc])
      · exact Or.inr (by rw [List.foldl_cons, h, hc]; exact List.mem_cons_self x xs)
    · exact Or.inr (List.mem_cons_of_mem x h)

/-- The maximum of a nonempty trace is attained. -/
theorem npMax_mem (xs : List ℚ) (h : xs ≠ []) : npMax xs ∈ xs := by
  cases xs with
  | nil => exact absurd rfl h
  | cons x xs =>
    rw [npMax, List.headD_cons, List.foldl_cons, max_self]
    rcases foldl_max_mem xs x with h' | h'
    · rw [h']; exact List.mem_cons_self x xs
    · exact List.mem_cons_of_mem x h'

/-- The first-occurrence index of the maximum is in range and points at the
maximum (for a nonempty trace). -/
theorem npArgmax_getD (xs : List ℚ) (h : xs ≠ []) (d : ℚ) :
    npArgmax xs < xs.length ∧ xs.getD (npArgmax xs) d = npMax xs := by
  obtain ⟨k, hk⟩ :=
    nonzeroFirst_isSome (fun x => decide (x = npMax xs)) xs
      ⟨npMax xs, npMax_mem xs h, by simp⟩
  obtain ⟨h1, h2, _⟩ := nonzeroFirst_eq_some (fun x => decide (x = npMax xs)) d xs k hk
  rw [npArgmax, hk, Option.getD_some]
  exact ⟨h1, of_decide_eq_true h2⟩

/-! ## Concrete inputs used by witnesses and counterexamples -/

/-! ## Claims -/

/-- C1: the spec's BoundsPolicy says a supplied guess `g` yields per-parameter
bounds `(0.1*g_i, 5*g_i)`, with `(-inf, inf)` for a parameter whose guess is
exactly 0 (so `[0, 2, 3, 4]` gives `(-inf, inf)` for parameter 0 and
`(0.2, 10)` for parameter 1).  The code cannot do this: `guessRange` raises
`NameError` on every call in which a guess function was supplied (line 207
reads the undefined name `guess`), while the separately stated intended
computation `guessRange_spec` does produce exactly the bounds the claim
describes. -/
theorem C1_guessRange_bug_vs_spec :
    guessRange (some guessTES) = Except.error PyError.nameError ∧
    guessRange (some guessFET) = Except.error PyError.nameError ∧
    guessRange_spec [0, 2, 3, 4] =
      ([ExtQ.negInf, ExtQ.val (1/5), ExtQ.val (3/10), ExtQ.val (2/5)],
       [ExtQ.posInf, ExtQ.val 10, ExtQ.val 15, ExtQ.val 20]) :=
  ⟨rfl, rfl, by decide⟩

/-- C2: on a trace that never rises above a flat zero baseline, the guess and
window stage does NOT fail with a typed `FeatureNotFound` (no such error
exists anywhere in the source); both the TES branch of `fittingRange` and the
first threshold search of `guessTES` index the empty `np.nonzero(...)[0]`
match array and die with an unguarded `IndexError`. -/
theorem C2_zero_trace_index_fault :
    fittingRange "TES" [0, 0, 0, 0, 0] (1/5) = Except.error PyError.indexError ∧
    guessTES [0, 1, 2, 3, 4] [0, 0, 0, 0, 0] = Except.error PyError.indexError :=
  ⟨by decide, by decide⟩

/-- C10: `guessRange` returns normally only for `guessFunc=None` (giving the
unconstrained pair); for every non-`None` guess function it raises
`NameError` (line 207 reads the undefined name `guess`), so bounds derived
from an actual guess vector are never produced by any call. -/
theorem C10_guessRange_none_or_nameerror :
    guessRange none = Except.ok PyBounds.unbounded ∧
    ∀ f : GuessFunc, guessRange (some f) = Except.error PyError.nameError :=
  ⟨rfl, fun _ => rfl⟩

/-- Every execution path of `guessTES` ends in an exception (one of the four
searches raises `IndexError`, or line 153 raises `NameError`), so it never
returns a parameter vector. -/
theorem guessTES_ne_ok (bins trace : List ℚ) (p : ℚ × ℚ × ℚ × ℚ) :
    guessTES bins trace ≠ Except.ok p := by
  simp only [guessTES]
  split
  · simp
  · split
    · simp
    · split
      · simp
      · split <;> simp

/-- C9: whenever all four threshold searches of `guessTES` succeed, the
function still fails — line 153 evaluates `pulseShape`, a name defined only
as a parameter of `trace_fitting`, never at module scope — raising
`NameError`; hence `guessTES` never returns a guess and every TES fit
(`trace_fitting` with `guessTES` as guess function) aborts with an error
before the solver can run. -/
theorem C9_guessTES_nameerror (bins trace : List ℚ)
    (h1 : (nonzeroLast (fun x => decide (x ≤ 1/10 * npMax trace))
            (trace.take (npArgmax trace))).isSome = true)
    (h2 : (nonzeroLast (fun x => decide (x ≤ 2/10 * npMax trace * npE))
            (trace.take (npArgmax trace))).isSome = true)
    (h3 : (nonzeroFirst (fun x => decide (x ≤ 8/10 * npMax trace))
            (trace.drop (npArgmax trace))).isSome = true)
    (h4 : (nonzeroFirst (fun x => decide (x ≤ 4/10 * npMax trace / npE))
            (trace.drop (npArgmax trace))).isSome = true) :
    guessTES bins trace = Except.error PyError.nameError ∧
    ∀ {Shape : Type} (curve_fit : CurveFit Shape) (pulseShape : Shape)
      (p : ℚ × ℚ × ℚ × ℚ),
      trace_fitting "TES" curve_fit bins trace pulseShape (some guessTES) true ≠
        Except.ok p := by
  constructor
  · obtain ⟨rlo, hrlo⟩ := Option.isSome_iff_exists.1 h1
    obtain ⟨rhi, hrhi⟩ := Option.isSome_iff_exists.1 h2
    obtain ⟨flo, hflo⟩ := Option.isSome_iff_exists.1 h3
    obtain ⟨fhi, hfhi⟩ := Option.isSome_iff_exists.1 h4
    simp only [guessTES, hrlo, hrhi, hflo, hfhi]
  · intro Shape curve_fit pulseShape p hcontra
    simp only [trace_fitting] at hcontra
    cases hfr : fittingRange "TES" trace (1/5) with
    | error err => rw [hfr] at hcontra; simp at hcontra
    | ok se =>
      rw [hfr] at hcontra
      cases hge : guessTES bins trace with
      | error err => rw [hge] at hcontra; simp [Except.map] at hcontra
      | ok v => exact guessTES_ne_ok bins trace v hge

/-- Witness for C9 at the synthetic TES pulse `tesTrace`: all four searches
succeed, and `guessTES` indeed returns `NameError`. -/
theorem C9_witness :
    ((nonzeroLast (fun x => decide (x ≤ 1/10 * npMax tesTrace))
        (tesTrace.take (npArgmax tesTrace))).isSome = true ∧
     (nonzeroLast (fun x => decide (x ≤ 2/10 * npMax tesTrace * npE))
        (tesTrace.take (npArgmax tesTrace))).isSome = true ∧
     (nonzeroFirst (fun x => decide (x ≤ 8/10 * npMax tesTrace))
        (tesTrace.drop (npArgmax tesTrace))).isSome = true ∧
     (nonzeroFirst (fun x => decide (x ≤ 4/10 * npMax tesTrace / npE))
        (tesTrace.drop (npArgmax tesTrace))).isSome = true) ∧
    guessTES tesBins tesTrace = Except.error PyError.nameError :=
  ⟨⟨by decide, by decide, by decide, by decide⟩,
    (C9_guessTES_nameerror tesBins tesTrace (by decide) (by decide) (by decide)
      (by decide)).1⟩

/-- C3: for every fit invocation, the pipeline computes the window by
`fittingRange` on the full trace, computes the guess by applying the guess
function to the full `(bins, trace)` arrays — not the windowed sub-arrays —
and then runs the solver only over the windowed sub-arrays
`bins[start:end]`, `trace[start:end]`, seeded with that guess. -/
theorem C3_trace_fitting_dataflow {Shape : Type}
    (sensorType : String) (curve_fit : CurveFit Shape)
    (bins trace : List ℚ) (pulseShape : Shape) (f : GuessFunc) (dobounds : Bool)
    (s e : ℕ) (g : ℚ × ℚ × ℚ × ℚ) (b : PyBounds)
    (hw : fittingRange sensorType trace (1/5) = Except.ok (s, e))
    (hg : f bins trace = Except.ok g)
    (hb : (if dobounds then guessRange (some f) else Except.ok PyBounds.unbounded) =
      Except.ok b) :
    trace_fitting sensorType curve_fit bins trace pulseShape (some f) dobounds =
      curve_fit pulseShape ((bins.drop s).take (e - s)) ((trace.drop s).take (e - s))
        (some g) b := by
  simp only [trace_fitting, hw, hg, hb, Except.map]

/-- Witness for C3 on concrete data (FET-style invocation, bounds disabled). -/
theorem C3_witness :
    (fittingRange "FET" fetTrace (1/5) = Except.ok (2, 2002) ∧
     toyGuess fetBins fetTrace = Except.ok (1, 2, 3, 4) ∧
     (if false then guessRange (some toyGuess) else Except.ok PyBounds.unbounded) =
       Except.ok PyBounds.unbounded) ∧
    trace_fitting "FET" toySolver fetBins fetTrace () (some toyGuess) false =
      toySolver () ((fetBins.drop 2).take (2002 - 2)) ((fetTrace.drop 2).take (2002 - 2))
        (some (1, 2, 3, 4)) PyBounds.unbounded :=
  ⟨⟨by decide, rfl, rfl⟩,
    C3_trace_fitting_dataflow "FET" toySolver fetBins fetTrace () toyGuess false
      2 2002 (1, 2, 3, 4) PyBounds.unbounded (by decide) rfl rfl⟩

/-- C8: the TES driver invokes the fitting pipeline with bounds enabled
(`dobounds=True` by default, line 82) and the FET driver with bounds
disabled (explicit `False`, line 103); consequently every FET least-squares
solve that reaches the solver is unconstrained — its bounds argument is the
scalar pair `(-inf, inf)`. -/
theorem C8_bounds_asymmetry (curve_fit : CurveFit PulseModel) (bins trace : List ℚ) :
    traceFit_TES_core curve_fit bins trace =
      trace_fitting "TES" curve_fit bins trace PulseModel.TESmodel (some guessTES) true ∧
    traceFit_FET_core curve_fit bins trace =
      trace_fitting "FET" curve_fit bins trace PulseModel.FETmodel (some guessFET) false ∧
    ∀ (s e : ℕ) (g : ℚ × ℚ × ℚ × ℚ),
      fittingRange "FET" trace (1/5) = Except.ok (s, e) →
      guessFET bins trace = Except.ok g →
      traceFit_FET_core curve_fit bins trace =
        curve_fit PulseModel.FETmodel ((bins.drop s).take (e - s))
          ((trace.drop s).take (e - s)) (some g) PyBounds.unbounded := by
  refine ⟨rfl, rfl, ?_⟩
  intro s e g hw hg
  simp only [traceFit_FET_core, trace_fitting, hw, hg, Except.map]
  rfl

/-- Witness for C8 on concrete data: the FET fit of `fetTrace` reaches the
solver with bounds `(-inf, inf)`. -/
theorem C8_witness :
    (fittingRange "FET" fetTrace (1/5) = Except.ok (2, 2002) ∧
     guessFET fetBins fetTrace = Except.ok (5/2, 2, 0, 0)) ∧
    traceFit_FET_core toySolverPM fetBins fetTrace =
      toySolverPM PulseModel.FETmodel ((fetBins.drop 2).take (2002 - 2))
        ((fetTrace.drop 2).take (2002 - 2)) (some (5/2, 2, 0, 0)) PyBounds.unbounded :=
  ⟨⟨by decide, by decide⟩,
    (C8_bounds_asymmetry toySolverPM fetBins fetTrace).2.2 2 2002 (5/2, 2, 0, 0)
      (by decide) (by decide)⟩

/-- C6: for parameters with `invTd > invTr ≥ 0`, `FETshape` at `t = t0`
equals `a*(invTd - invTr)` exactly, and (for nonnegative amplitude) this is
the maximum of the shape over `[t0, ∞)` — so the fitted `a` is NOT the peak
height. -/
theorem C6_FETshape_peak (a invTd invTr t0 : ℝ) (hr : 0 ≤ invTr) (hd : invTr < invTd) :
    FETshape t0 a invTd invTr t0 = a * (invTd - invTr) ∧
    (0 ≤ a → ∀ x, t0 ≤ x → FETshape x a invTd invTr t0 ≤ a * (invTd - invTr)) := by
  constructor
  · simp [FETshape]
  · intro ha x hx
    have hs : 0 ≤ x - t0 := sub_nonneg.2 hx
    have hd0 : 0 ≤ invTd := hr.trans hd.le
    have hdr : 0 ≤ invTd - invTr := sub_nonneg.2 hd.le
    have h1 : Real.exp (-(x - t0) * invTd) ≤ Real.exp (-(x - t0) * invTr) := by
      apply Real.exp_le_exp.2
      nlinarith
    have h2 : Real.exp (-(x - t0) * invTr) ≤ 1 := by
      rw [Real.exp_le_one_iff]
      nlinarith
    rw [FETshape]
    apply mul_le_mul_of_nonneg_left _ ha
    nlinarith [mul_le_mul_of_nonneg_right h1 hd0, mul_le_mul_of_nonneg_right h2 hdr]

/-- Witness for C6 at `a=1, invTd=2, invTr=1, t0=0`. -/
theorem C6_witness :
    FETshape 0 1 2 1 0 = 1 * (2 - 1) ∧
    (0 ≤ (1:ℝ) → ∀ x, (0:ℝ) ≤ x → FETshape x 1 2 1 0 ≤ 1 * (2 - 1)) :=
  C6_FETshape_peak 1 2 1 0 (by norm_num) (by norm_num)

/-- Unfolding of the TES branch of `fittingRange`. -/
theorem fittingRange_TES (trace : List ℚ) (cut : ℚ) :
    fittingRange "TES" trace cut =
      match nonzeroLast (fun x => decide (x ≤ cut * npMax trace))
          (trace.take (npArgmax trace)) with
      | none => .error .indexError
      | some ilo =>
        match nonzeroFirst (fun x => decide (x ≤ cut * npMax trace))
            (trace.drop (npArgmax trace)) with
        | none => .error .indexError
        | some k => .ok (ilo, npArgmax trace + k) := rfl

/-- C4 (amended): whenever the TES branch of `fittingRange` succeeds with a
window `[s, e)` (and the cut is strictly below the peak), `s` is the last
index before the peak with value at or below `cut*peak`, `e` is the first
index at or after the peak with value at or below `cut*peak`, the window
strictly contains the peak index, and the window excludes every index whose
value is below `cut*peak` on both sides of the peak EXCEPT its own first
index `s`, which is at or below the threshold yet belongs to the half-open
window `[s, e)` — the original claim's blanket exclusion fails exactly
there (see the counterexample). -/
theorem C4_fittingRange_TES_window (trace : List ℚ) (cut : ℚ) (s e : ℕ)
    (hok : fittingRange "TES" trace cut = Except.ok (s, e))
    (hcut : cut * npMax trace < npMax trace) :
    TESwindowSpec trace cut s e := by
  rw [fittingRange_TES] at hok
  cases hlo : nonzeroLast (fun x => decide (x ≤ cut * npMax trace))
      (trace.take (npArgmax trace)) with
  | none => rw [hlo] at hok; simp at hok
  | some ilo =>
    simp only [hlo] at hok
    cases hhi : nonzeroFirst (fun x => decide (x ≤ cut * npMax trace))
        (trace.drop (npArgmax trace)) with
    | none => simp only [hhi] at hok; exact absurd hok (by simp)
    | some k =>
      simp only [hhi] at hok
      have hpair : (ilo, npArgmax trace + k) = (s, e) := Except.ok.inj hok
      obtain ⟨rfl, rfl⟩ : ilo = s ∧ npArgmax trace + k = e :=
        ⟨congrArg Prod.fst hpair, congrArg Prod.snd hpair⟩
      obtain ⟨hlo_len, hlo_p, hlo_after⟩ :=
        nonzeroLast_eq_some _ 0 (trace.take (npArgmax trace)) _ hlo
      obtain ⟨hhi_len, hhi_p, hhi_before⟩ :=
        nonzeroFirst_eq_some _ 0 (trace.drop (npArgmax trace)) _ hhi
      have htr_ne : trace ≠ [] := by
        intro h
        rw [h] at hlo_len
        simp at hlo_len
      obtain ⟨hargmax_lt, hargmax_val⟩ := npArgmax_getD trace htr_ne 0
      rw [List.length_take] at hlo_len
      rw [List.length_drop] at hhi_len
      have hilo_lt : ilo < npArgmax trace := by omega
      have hk_pos : 0 < k := by
        rcases Nat.eq_zero_or_pos k with rfl | hk
        · have hle := of_decide_eq_true hhi_p
          rw [getD_drop_eq, Nat.add_zero, hargmax_val] at hle
          linarith
        · exact hk
      have h_s_le : trace.getD ilo 0 ≤ cut * npMax trace := by
        have hle := of_decide_eq_true hlo_p
        rwa [getD_take_eq _ _ _ _ hilo_lt] at hle
      have h_rise : ∀ j, ilo < j → j < npArgmax trace →
          cut * npMax trace < trace.getD j 0 := by
        intro j hj1 hj2
        have hfalse := hlo_after j hj1 (by rw [List.length_take]; omega)
        have hnot := of_decide_eq_false hfalse
        rw [getD_take_eq _ _ _ _ hj2] at hnot
        exact lt_of_not_le hnot
      have h_e_le : trace.getD (npArgmax trace + k) 0 ≤ cut * npMax trace := by
        have hle := of_decide_eq_true hhi_p
        rwa [getD_drop_eq] at hle
      have h_fall : ∀ j, npArgmax trace ≤ j → j < npArgmax trace + k →
          cut * npMax trace < trace.getD j 0 := by
        intro j hj1 hj2
        obtain ⟨j', rfl⟩ : ∃ j', j = npArgmax trace + j' := ⟨j - npArgmax trace, by omega⟩
        have hfalse := hhi_before j' (by omega)
        have hnot := of_decide_eq_false hfalse
        rw [getD_drop_eq] at hnot
        exact lt_of_not_le hnot
      refine ⟨⟨hilo_lt, by omega, by omega⟩, ⟨h_s_le, h_rise⟩,
        ⟨h_e_le, h_fall⟩, ?_⟩
      intro j hj1 hj2
      rcases Nat.lt_or_ge j (npArgmax trace) with h | h
      · exact h_rise j hj1 h
      · exact h_fall j h hj2

/-- C4 counterexample: on the clean single-peak trace `exTrace4` with
`cut = 0.2`, the TES window is `[47, 53)`; its first index 47 belongs to the
half-open window yet carries the value `0 < 0.2*peak`, so the window does
NOT exclude every index whose value is below `0.2*peak`. -/
theorem C4_counterexample :
    fittingRange "TES" exTrace4 (1/5) = Except.ok (47, 53) ∧
    exTrace4.getD 47 0 < 1/5 * npMax exTrace4 ∧
    ¬(47 < 47 ∨ 53 ≤ 47) :=
  ⟨by decide, by decide, by decide⟩

/-- Witness for C4 (amended) at the trace `exTrace4` with `cut = 0.2`. -/
theorem C4_witness :
    (fittingRange "TES" exTrace4 (1/5) = Except.ok (47, 53) ∧
     (1/5) * npMax exTrace4 < npMax exTrace4) ∧
    TESwindowSpec exTrace4 (1/5) 47 53 :=
  ⟨⟨by decide, by decide⟩,
    C4_fittingRange_TES_window exTrace4 (1/5) 47 53 (by decide) (by decide)⟩

/-- C5 (amended): on every successful `guessFET` run, the decay-rate
component of the guess equals `2/(bins[dhi] - bins[0])`, where `dhi` is the
position of the last at-or-above-`peak/(2e)` sample *within the post-peak
slice* `trace[ipeak:]` — the source indexes `bins` with the slice-relative
position, not with the full-trace index `ipeak + dhi`; for uniformly spaced
bins this equals `2/(tSample - tPeak)`, not `2/(tSample - bins[0])`. -/
theorem C5_guessFET_decay (bins trace : List ℚ) (g : ℚ × ℚ × ℚ × ℚ) (dhi : ℕ)
    (hok : guessFET bins trace = Except.ok g)
    (hd : nonzeroLast (fun x => decide (npMax trace / (2 * npE) ≤ x))
        (trace.drop (npArgmax trace)) = some dhi) :
    g.2.1 = 2 / (bins.getD dhi 0 - bins.getD 0 0) := by
  simp only [guessFET, hd] at hok
  cases h0 : nonzeroFirst (fun b => decide (0 ≤ b)) bins with
  | none => rw [h0] at hok; simp at hok
  | some i0 =>
    simp only [h0] at hok
    by_cases hmin : npMin trace < 0
    · rw [if_pos hmin] at hok
      cases hlo : nonzeroFirst (fun x => decide (npMin trace * (8/10) ≤ x))
          (trace.drop (npArgmin trace)) with
      | none => rw [hlo] at hok; simp at hok
      | some rlo =>
        simp only [hlo] at hok
        cases hhi : nonzeroFirst (fun x => decide (min (npMin trace * (4/10) / npE)
            (npMax (trace.drop (npArgmin trace))) ≤ x)) (trace.drop (npArgmin trace)) with
        | none => rw [hhi] at hok; simp at hok
        | some rhi =>
          simp only [hhi] at hok
          rw [← Except.ok.inj hok]
    · rw [if_neg hmin] at hok
      rw [← Except.ok.inj hok]

/-- C5 counterexample: for `exBins5`/`exTrace5` the peak is at index 1 and
the last at-or-above-`peak/(2e)` sample sits at slice position 2, i.e. at
full-trace index `1 + 2 = 3`, whose bin-axis time is `3`; the claim's
formula `2/(timeAtFullTraceIndex - bins[0]) = 2/(3 - 0)` differs from the
decay rate the code actually returns, `2/(bins[2] - bins[0]) = 1`. -/
theorem C5_counterexample :
    guessFET exBins5 exTrace5 = Except.ok (5, 1, 0, 0) ∧
    npArgmax exTrace5 = 1 ∧
    nonzeroLast (fun x => decide (npMax exTrace5 / (2 * npE) ≤ x))
      (exTrace5.drop (npArgmax exTrace5)) = some 2 ∧
    exBins5.getD (1 + 2) 0 = 3 ∧ exBins5.getD 0 0 = 0 ∧
    ¬((5:ℚ), (1:ℚ), (0:ℚ), (0:ℚ)).2.1 = 2 / (3 - 0) :=
  ⟨by decide, by decide, by decide, by decide, by decide, by decide⟩

/-- Witness for C5 (amended) on `exBins5`/`exTrace5`. -/
theorem C5_witness :
    (guessFET exBins5 exTrace5 = Except.ok (5, 1, 0, 0) ∧
     nonzeroLast (fun x => decide (npMax exTrace5 / (2 * npE) ≤ x))
       (exTrace5.drop (npArgmax exTrace5)) = some 2) ∧
    ((5:ℚ), (1:ℚ), (0:ℚ), (0:ℚ)).2.1 = 2 / (exBins5.getD 2 0 - exBins5.getD 0 0) :=
  ⟨⟨by decide, by decide⟩,
    C5_guessFET_decay exBins5 exTrace5 (5, 1, 0, 0) 2 (by decide) (by decide)⟩

/-- C7: whenever `guessFET` takes the undershoot branch (negative minimum)
and the raw recovery rate `2/(bins[rhi] - bins[rlo])` is below 10% of the
decay rate, the returned guess carries recovery rate exactly `0`, not the
raw value (and the scale is computed with that clamped value). -/
theorem C7_guessFET_recovery_clamp (bins trace : List ℚ) (i0 dhi rlo rhi : ℕ)
    (h0 : nonzeroFirst (fun b => decide (0 ≤ b)) bins = some i0)
    (hd : nonzeroLast (fun x => decide (npMax trace / (2 * npE) ≤ x))
        (trace.drop (npArgmax trace)) = some dhi)
    (hmin : npMin trace < 0)
    (hlo : nonzeroFirst (fun x => decide (npMin trace * (8/10) ≤ x))
        (trace.drop (npArgmin trace)) = some rlo)
    (hhi : nonzeroFirst (fun x => decide (min (npMin trace * (4/10) / npE)
        (npMax (trace.drop (npArgmin trace))) ≤ x)) (trace.drop (npArgmin trace)) = some rhi)
    (hclamp : 2 / (bins.getD rhi 0 - bins.getD rlo 0) <
        1/10 * (2 / (bins.getD dhi 0 - bins.getD 0 0))) :
    guessFET bins trace = Except.ok
      (npMax trace / (2 / (bins.getD dhi 0 - bins.getD 0 0) - 0),
       2 / (bins.getD dhi 0 - bins.getD 0 0), 0,
       (npArgmax trace : ℚ) - ((i0 + 1 : ℕ) : ℚ)) := by
  simp only [guessFET, h0, hd, hlo, hhi, if_pos hmin, if_pos hclamp]

/-- Witness for C7 on `exBins7`/`exTrace7`: decay rate 1.0, raw recovery
rate 0.05 < 10% of decay, recovery component of the returned guess is 0. -/
theorem C7_witness :
    (nonzeroFirst (fun b => decide (0 ≤ b)) exBins7 = some 0 ∧
     nonzeroLast (fun x => decide (npMax exTrace7 / (2 * npE) ≤ x))
       (exTrace7.drop (npArgmax exTrace7)) = some 1 ∧
     npMin exTrace7 < 0 ∧
     nonzeroFirst (fun x => decide (npMin exTrace7 * (8/10) ≤ x))
       (exTrace7.drop (npArgmin exTrace7)) = some 1 ∧
     nonzeroFirst (fun x => decide (min (npMin exTrace7 * (4/10) / npE)
       (npMax (exTrace7.drop (npArgmin exTrace7))) ≤ x))
       (exTrace7.drop (npArgmin exTrace7)) = some 2 ∧
     2 / (exBins7.getD 2 0 - exBins7.getD 1 0) <
       1/10 * (2 / (exBins7.getD 1 0 - exBins7.getD 0 0))) ∧
    guessFET exBins7 exTrace7 = Except.ok
      (npMax exTrace7 / (2 / (exBins7.getD 1 0 - exBins7.getD 0 0) - 0),
       2 / (exBins7.getD 1 0 - exBins7.getD 0 0), 0,
       (npArgmax exTrace7 : ℚ) - ((0 + 1 : ℕ) : ℚ)) :=
  ⟨⟨by decide, by decide, by decide, by decide, by decide, by decide⟩,
    C7_guessFET_recovery_clamp exBins7 exTrace7 0 1 1 2 (by decide) (by decide)
      (by decide) (by decide) (by decide) (by decide)⟩
